import Mathlib

/-!
Verification of the hotel frontdesk service (src/main.py, src/schemas.py).

Shallow embedding: the document store (MongoDB collections "checkin",
"order", "bill") is a triple of lists; each request handler becomes a pure
function threading that store.  Python floats on the money/time fields are
modelled as exact rationals, datetimes as rational seconds since an epoch,
and MongoDB ObjectIds as natural numbers.  The random "BILL-XXXXXXXX"
identifier and the wall-clock time are passed in as parameters.  HTTP errors
are the Except error channel carrying the status code.
-/

namespace Hotel

/-- The value a checkin document carries in its createdAt slot, as seen by the
checkout handler: either something that parses to a (timezone-aware) datetime
— a native datetime or an ISO-8601 string — or a value whose parse raises, in
which case the code falls back to the current time (main.py lines 123-127). -/
inductive CreatedAt where
  | parsed (t : ℚ)
  | unparsed
deriving DecidableEq, Repr

/-- A document of the "checkin" collection; fields as in schemas.Checkin plus
the store id and the updated_at stamp written at checkout. -/
structure CheckinDoc where
  cid : Nat
  name : String
  phone : String
  idtype : Option String := none
  id : Option String := none
  address : Option String := none
  room : String
  roomType : Option String := none
  rate : ℚ := 0
  adults : ℤ := 1
  children : ℤ := 0
  advance : ℚ := 0
  mode : Option String := some "Cash"
  remarks : Option String := none
  createdAt : CreatedAt
  status : String
  updatedAt : Option ℚ := none
deriving DecidableEq, Repr

/-- schemas.OrderItem: name, qty (int), price (float).  The pydantic model
declares no lower bound on qty or price. -/
structure OrderItem where
  name : String
  qty : ℤ
  price : ℚ
deriving DecidableEq, Repr

/-- A document of the "order" collection; fields as in schemas.Order plus the
store id and the updated_at stamp written when the order is folded. -/
structure OrderDoc where
  oid : Nat
  type : String := "inhouse"
  room : Option String := none
  name : Option String := none
  phone : String
  items : List OrderItem := []
  total : ℚ := 0
  status : String := "Unpaid"
  mode : String := "Cash"
  createdAt : Option ℚ := none
  synced : Bool := false
  updatedAt : Option ℚ := none
deriving DecidableEq, Repr

/-- A document of the "bill" collection; fields as in schemas.Bill plus the
updated_at stamp written by the pay handler. -/
structure BillDoc where
  id : String
  guest : String
  phone : String
  room : String
  nights : ℤ
  roomCharges : ℚ
  foodTotal : ℚ
  advance : ℚ := 0
  tax : ℚ
  total : ℚ
  status : String := "Unpaid"
  mode : String := "Cash"
  createdAt : Option ℚ := none
  updatedAt : Option ℚ := none
deriving DecidableEq, Repr

/-- The document store: the three collections used by main.py. -/
structure Store where
  checkins : List CheckinDoc
  orders : List OrderDoc
  bills : List BillDoc
deriving DecidableEq, Repr

/-- The body of a POST /api/checkins request after pydantic validation
(schemas.Checkin): required name, phone, room; the rest defaulted. -/
structure CheckinInput where
  name : String
  phone : String
  idtype : Option String := none
  id : Option String := none
  address : Option String := none
  room : String
  roomType : Option String := none
  rate : ℚ := 0
  adults : ℤ := 1
  children : ℤ := 0
  advance : ℚ := 0
  mode : Option String := some "Cash"
  remarks : Option String := none
  createdAt : Option ℚ := none
  status : String := "Occupied"
deriving DecidableEq, Repr

/-- The body of a POST /api/orders request after pydantic validation
(schemas.Order): required phone; the rest defaulted.  qty and price of the
items carry no sign constraint — validation only checks the types. -/
structure OrderInput where
  type : String := "inhouse"
  room : Option String := none
  name : Option String := none
  phone : String
  items : List OrderItem := []
  total : ℚ := 0
  status : String := "Unpaid"
  mode : String := "Cash"
  createdAt : Option ℚ := none
  synced : Bool := false
deriving DecidableEq, Repr

/-- MongoDB update_one: rewrite the first document matching the filter,
leave everything else untouched. -/
def updateFirst (p : α → Bool) (f : α → α) : List α → List α
  | [] => []
  | x :: xs => if p x then f x :: xs else x :: updateFirst p f xs

/-- The filter used by create_checkin (main.py line 50):
db.checkin.find_one with room = the requested room and status = "Occupied". -/
def occupiedInRoom (room : String) (c : CheckinDoc) : Bool :=
  c.room == room && c.status == "Occupied"

/-- The filter used by create_final_bill (main.py line 118):
db.checkin.find_one with the requested room, the requested phone and
status = "Occupied". -/
def checkinMatches (room phone : String) (c : CheckinDoc) : Bool :=
  c.room == room && c.phone == phone && c.status == "Occupied"

/-- The filter used by create_final_bill (main.py line 134) to collect the
orders folded into the bill: type = "inhouse", room = the requested room,
status = "Unpaid".  The guest phone does not occur in it. -/
def inhouseUnpaidFor (room : String) (o : OrderDoc) : Bool :=
  o.type == "inhouse" && o.room == some room && o.status == "Unpaid"

/-- main.py lines 123-127: take the createdAt of the checkin when it parses,
the current time otherwise. -/
def parseStart (ca : CreatedAt) (now : ℚ) : ℚ :=
  match ca with
  | .parsed t => t
  | .unparsed => now

/-- main.py line 128:
nights = max(1, int(((now - start).total_seconds()) // 86400) + 1). -/
def nightsCalc (now start : ℚ) : ℤ :=
  max 1 (⌊(now - start) / 86400⌋ + 1)

/-- Python round() on the exact value: nearest integer, ties to even
(the tie-breaking rule of Python's numeric library). -/
def pythonRound (q : ℚ) : ℤ :=
  if q - ⌊q⌋ < 1 / 2 then ⌊q⌋
  else if 1 / 2 < q - ⌊q⌋ then ⌊q⌋ + 1
  else if ⌊q⌋ % 2 = 0 then ⌊q⌋ else ⌊q⌋ + 1

/-- Σ qty × price over the items (main.py line 77). -/
def sumItems (items : List OrderItem) : ℚ :=
  (items.map (fun it => (it.qty : ℚ) * it.price)).sum

/-- The document create_checkin inserts (main.py lines 43-47): the payload
with createdAt defaulted to the current time when absent and a falsy status
replaced by "Occupied". -/
def checkinDocOf (input : CheckinInput) (now : ℚ) (newId : Nat) : CheckinDoc :=
  { cid := newId, name := input.name, phone := input.phone,
    idtype := input.idtype, id := input.id, address := input.address,
    room := input.room, roomType := input.roomType, rate := input.rate,
    adults := input.adults, children := input.children,
    advance := input.advance, mode := input.mode, remarks := input.remarks,
    createdAt := CreatedAt.parsed (input.createdAt.getD now),
    status := if input.status == "" then "Occupied" else input.status }

/-- POST /api/checkins, the decision (main.py lines 41-55): rejects with 400
when an Occupied checkin for the room already exists, otherwise inserts and
returns the store-assigned id. -/
def create_checkin (st : Store) (input : CheckinInput) (now : ℚ) (newId : Nat) :
    Except Nat (Store × Nat) :=
  match st.checkins.find? (occupiedInRoom input.room) with
  | some _ => .error 400
  | none =>
    .ok ({ st with checkins := st.checkins ++ [checkinDocOf input now newId] },
         newId)

/-- The total create_order persists (main.py lines 76-77): when items is
non-empty the total is Σ qty × price, except that a zero sum is falsy in
Python, so `sum(...) or data.get("total", 0)` falls back to the
client-supplied total; with no items the client total is kept. -/
def storedTotal (input : OrderInput) : ℚ :=
  if input.items.isEmpty then input.total
  else if sumItems input.items = 0 then input.total else sumItems input.items

/-- POST /api/orders, the insertion (main.py lines 70-79): the payload with
createdAt defaulted and the total of storedTotal, appended to the order
collection; the handler has no failure path after validation. -/
def create_order (st : Store) (input : OrderInput) (now : ℚ) (newId : Nat) :
    Store × Nat :=
  let doc : OrderDoc :=
    { oid := newId, type := input.type, room := input.room, name := input.name,
      phone := input.phone, items := input.items, total := storedTotal input,
      status := input.status, mode := input.mode,
      createdAt := some (input.createdAt.getD now), synced := input.synced }
  ({ st with orders := st.orders ++ [doc] }, newId)

/-- POST /api/bills/\x7bbill_id\x7d/pay (main.py lines 98-103):
update_one on the business id field setting status, mode, updated_at;
404 when the filter matched nothing. -/
def mark_bill_paid (st : Store) (billId mode : String) (now : ℚ) :
    Except Nat Store :=
  if st.bills.any (fun b => b.id == billId) then
    .ok { st with
          bills := updateFirst (fun b => b.id == billId)
            (fun b => { b with status := "Paid", mode := mode,
                               updatedAt := some now }) st.bills }
  else .error 404

/-- The bill constructed by create_final_bill (main.py lines 122-157) from
the located checkin `c`, the already-summed food total, the current time and
the generated identifier: nights from the parsed createdAt, room charges
nights × rate, 12% tax via Python round, grand total
subtotal + tax − advance, status "Unpaid", mode "Cash". -/
def billFor (c : CheckinDoc) (foodTotal : ℚ) (now : ℚ) (billId : String) :
    BillDoc :=
  let start := parseStart c.createdAt now
  let nights := nightsCalc now start
  let roomCharges := (nights : ℚ) * c.rate
  let subtotal := roomCharges + foodTotal
  let tax := pythonRound (subtotal * (12 / 100))
  { id := billId, guest := c.name, phone := c.phone, room := c.room,
    nights := nights, roomCharges := roomCharges, foodTotal := foodTotal,
    advance := c.advance, tax := (tax : ℚ),
    total := subtotal + (tax : ℚ) - c.advance,
    status := "Unpaid", mode := "Cash", createdAt := some now }

/-- The store after a successful checkout of `c` (main.py lines 122-165):
the bill built from the unpaid in-house orders of the room is appended to the
bill collection, those orders get synced = true and an updated_at stamp (an
update_many keyed by the ids collected in the fetch), and the checkin is set
to "Checked-out" with an updated_at stamp. -/
def checkoutResult (st : Store) (c : CheckinDoc) (room : String) (now : ℚ)
    (billId : String) : Store :=
  let folded := st.orders.filter (inhouseUnpaidFor room)
  let bill := billFor c ((folded.map OrderDoc.total).sum) now billId
  let foldedIds := folded.map OrderDoc.oid
  { checkins := updateFirst (fun x => x.cid == c.cid)
      (fun x => { x with status := "Checked-out", updatedAt := some now })
      st.checkins,
    orders := st.orders.map (fun o =>
      if foldedIds.contains o.oid then
        { o with synced := true, updatedAt := some now }
      else o),
    bills := st.bills ++ [bill] }

/-- POST /api/checkout (main.py lines 115-167).  `billId` stands for the
random "BILL-" + 8 hex characters identifier, `now` for the current time
(the successive datetime.now calls of the handler are identified).  Locates
the Occupied checkin for (room, phone) or fails 404; computes nights, room
charges, the food total over the unpaid in-house orders of the room, the 12%
tax and the grand total; inserts the bill; marks the folded orders synced;
sets the checkin to Checked-out. -/
def create_final_bill (st : Store) (room phone : String) (now : ℚ)
    (billId : String) : Except Nat (Store × String) :=
  match st.checkins.find? (checkinMatches room phone) with
  | none => .error 404
  | some c => .ok (checkoutResult st c room now billId, billId)

/-- The checkin of the spec's checkout scenario: rate 1000, advance 200,
created at time 0, Occupied. -/
def scenarioCheckin : CheckinDoc :=
  { cid := 1, name := "Guest", phone := "555", room := "101",
    rate := 1000, advance := 200, createdAt := .parsed 0,
    status := "Occupied" }

/-- The order of the spec's checkout scenario: unpaid in-house order for room
101 with total 150. -/
def scenarioOrder : OrderDoc :=
  { oid := 7, type := "inhouse", room := some "101", phone := "555",
    total := 150, status := "Unpaid", createdAt := some 10, synced := false }

/-- The store of the spec's checkout scenario. -/
def scenarioStore : Store :=
  { checkins := [scenarioCheckin], orders := [scenarioOrder], bills := [] }

/-- The bill the scenario checkout must produce. -/
def scenarioBill : BillDoc :=
  { id := "BILL-0A1B2C3D", guest := "Guest", phone := "555", room := "101",
    nights := 2, roomCharges := 2000, foodTotal := 150, advance := 200,
    tax := 258, total := 2208, status := "Unpaid", mode := "Cash",
    createdAt := some 90000 }

/-- The store after the scenario checkout at time 90000 (25 hours). -/
def scenarioResult : Store :=
  { checkins :=
      [{ scenarioCheckin with status := "Checked-out", updatedAt := some 90000 }],
    orders :=
      [{ scenarioOrder with synced := true, updatedAt := some 90000 }],
    bills := [scenarioBill] }

/-- The scenario checkout evaluated: one helper equation shared by the
concrete instantiations below. -/
lemma scenario_ok :
    create_final_bill scenarioStore "101" "555" 90000 "BILL-0A1B2C3D" =
      .ok (scenarioResult, "BILL-0A1B2C3D") := by
  simp only [create_final_bill, checkoutResult, billFor, scenarioStore,
    scenarioCheckin, scenarioOrder, checkinMatches, inhouseUnpaidFor,
    parseStart, nightsCalc, pythonRound, sumItems, updateFirst, List.find?,
    List.filter, List.map, List.contains, scenarioResult, scenarioBill]
  norm_num

/-- C1: the checkout scenario — checkin with rate 1000, advance 200, created
25 hours (90000 seconds) before now, one unpaid in-house order of total 150
for the room — yields nights 2, roomCharges 2000, foodTotal 150, tax 258, a
persisted bill with total 2208 and status "Unpaid"; afterwards the checkin is
"Checked-out" and the order is synced. -/
theorem checkout_scenario :
    create_final_bill scenarioStore "101" "555" 90000 "BILL-0A1B2C3D" =
      .ok (scenarioResult, "BILL-0A1B2C3D")
    ∧ scenarioResult.bills = [scenarioBill]
    ∧ scenarioBill.nights = 2
    ∧ scenarioBill.roomCharges = 2000
    ∧ scenarioBill.foodTotal = 150
    ∧ scenarioBill.tax = 258
    ∧ scenarioBill.total = 2208
    ∧ scenarioBill.status = "Unpaid"
    ∧ scenarioResult.checkins.map CheckinDoc.status = ["Checked-out"]
    ∧ scenarioResult.orders.map OrderDoc.synced = [true] :=
  ⟨scenario_ok, rfl, rfl, rfl, rfl, rfl, rfl, rfl, rfl, rfl⟩

/-- Inversion of a successful checkout: the handler succeeded exactly when
the find_one located a checkin, and then the result is checkoutResult. -/
lemma create_final_bill_ok_iff (st : Store) (room phone : String) (now : ℚ)
    (billId : String) (st' : Store) (bid : String) :
    create_final_bill st room phone now billId = .ok (st', bid) ↔
      ∃ c, st.checkins.find? (checkinMatches room phone) = some c ∧
        st' = checkoutResult st c room now billId ∧ bid = billId := by
  cases hc : st.checkins.find? (checkinMatches room phone) with
  | none => simp [create_final_bill, hc]
  | some c =>
    simp only [create_final_bill, hc, Except.ok.injEq, Prod.mk.injEq,
      Option.some.injEq]
    constructor
    · rintro ⟨h1, h2⟩
      exact ⟨c, rfl, h1.symm, h2.symm⟩
    · rintro ⟨c2, rfl, h1, h2⟩
      exact ⟨h1.symm, h2.symm⟩

/-- The rounding of the tax is to a nearest integer: pythonRound never moves
a value by more than half a unit. -/
lemma pythonRound_dist (q : ℚ) : |q - (pythonRound q : ℚ)| ≤ 1 / 2 := by
  have h0 : ((⌊q⌋ : ℚ)) ≤ q := Int.floor_le q
  have h1 : q < ⌊q⌋ + 1 := Int.lt_floor_add_one q
  unfold pythonRound
  split_ifs <;> rw [abs_le] <;> push_cast <;> constructor <;> linarith

/-- C2: on every successful checkout, the persisted bill's nights equals
max(1, floor((now − start) / 86400) + 1) with start the parsed creation
timestamp of the located checkin (the current time when it does not parse),
and nights is at least 1 for every input, a future start included. -/
theorem checkout_nights (st : Store) (room phone : String) (now : ℚ)
    (billId : String) (st' : Store) (bid : String)
    (h : create_final_bill st room phone now billId = .ok (st', bid)) :
    ∃ c, st.checkins.find? (checkinMatches room phone) = some c ∧
      ∃ b, st'.bills = st.bills ++ [b] ∧
        b.nights = max 1 (⌊(now - parseStart c.createdAt now) / 86400⌋ + 1) ∧
        1 ≤ b.nights := by
  obtain ⟨c, hc, rfl, rfl⟩ := (create_final_bill_ok_iff st room phone now
    billId st' bid).mp h
  exact ⟨c, hc, _, rfl, rfl, le_max_left 1 _⟩

/-- C2 witness: the scenario instantiation of checkout_nights. -/
theorem checkout_nights_witness :
    ∃ c, scenarioStore.checkins.find? (checkinMatches "101" "555") = some c ∧
      ∃ b, scenarioResult.bills = scenarioStore.bills ++ [b] ∧
        b.nights =
          max 1 (⌊((90000 : ℚ) - parseStart c.createdAt 90000) / 86400⌋ + 1) ∧
        1 ≤ b.nights :=
  checkout_nights scenarioStore "101" "555" 90000 "BILL-0A1B2C3D"
    scenarioResult "BILL-0A1B2C3D" scenario_ok

/-- C3: on every successful checkout, the persisted bill's tax is the Python
rounding of (roomCharges + foodTotal) × 12/100 — in particular it is within
half a unit of the exact product — and its total is
roomCharges + foodTotal + tax − advance with advance the located checkin's
advance. -/
theorem checkout_tax_total (st : Store) (room phone : String) (now : ℚ)
    (billId : String) (st' : Store) (bid : String)
    (h : create_final_bill st room phone now billId = .ok (st', bid)) :
    ∃ c, st.checkins.find? (checkinMatches room phone) = some c ∧
      ∃ b, st'.bills = st.bills ++ [b] ∧
        b.tax = (pythonRound ((b.roomCharges + b.foodTotal) * (12 / 100)) : ℚ) ∧
        |(b.roomCharges + b.foodTotal) * (12 / 100) - b.tax| ≤ 1 / 2 ∧
        b.total = b.roomCharges + b.foodTotal + b.tax - c.advance ∧
        b.advance = c.advance := by
  obtain ⟨c, hc, rfl, rfl⟩ := (create_final_bill_ok_iff st room phone now
    billId st' bid).mp h
  exact ⟨c, hc, _, rfl, rfl, pythonRound_dist _, rfl, rfl⟩

/-- C3 witness: the scenario instantiation of checkout_tax_total. -/
theorem checkout_tax_total_witness :
    ∃ c, scenarioStore.checkins.find? (checkinMatches "101" "555") = some c ∧
      ∃ b, scenarioResult.bills = scenarioStore.bills ++ [b] ∧
        b.tax = (pythonRound ((b.roomCharges + b.foodTotal) * (12 / 100)) : ℚ) ∧
        |(b.roomCharges + b.foodTotal) * (12 / 100) - b.tax| ≤ 1 / 2 ∧
        b.total = b.roomCharges + b.foodTotal + b.tax - c.advance ∧
        b.advance = c.advance :=
  checkout_tax_total scenarioStore "101" "555" 90000 "BILL-0A1B2C3D"
    scenarioResult "BILL-0A1B2C3D" scenario_ok

/-- C5: on every successful checkout, the persisted bill's foodTotal is the
sum of the total field over exactly the orders with type "inhouse", the
requested room and status "Unpaid"; the selection predicate reads neither
the order's phone nor any other field, so the guest phone plays no role. -/
theorem checkout_food_total (st : Store) (room phone : String) (now : ℚ)
    (billId : String) (st' : Store) (bid : String)
    (h : create_final_bill st room phone now billId = .ok (st', bid)) :
    (∃ b, st'.bills = st.bills ++ [b] ∧
      b.foodTotal = ((st.orders.filter (fun o =>
          o.type == "inhouse" && o.room == some room && o.status == "Unpaid")).map
        OrderDoc.total).sum)
    ∧ ∀ (o : OrderDoc) (ph : String),
        inhouseUnpaidFor room { o with phone := ph } =
          inhouseUnpaidFor room o := by
  obtain ⟨c, hc, rfl, rfl⟩ := (create_final_bill_ok_iff st room phone now
    billId st' bid).mp h
  exact ⟨⟨_, rfl, rfl⟩, fun o ph => rfl⟩

/-- C5 witness: the scenario instantiation of checkout_food_total. -/
theorem checkout_food_total_witness :
    (∃ b, scenarioResult.bills = scenarioStore.bills ++ [b] ∧
      b.foodTotal = ((scenarioStore.orders.filter (fun o =>
          o.type == "inhouse" && o.room == some "101" && o.status == "Unpaid")).map
        OrderDoc.total).sum)
    ∧ ∀ (o : OrderDoc) (ph : String),
        inhouseUnpaidFor "101" { o with phone := ph } =
          inhouseUnpaidFor "101" o :=
  checkout_food_total scenarioStore "101" "555" 90000 "BILL-0A1B2C3D"
    scenarioResult "BILL-0A1B2C3D" scenario_ok

/-- C6: check-in creation is rejected with 400 and returns no store (no
record is persisted) exactly when some Occupied checkin for the requested
room already exists; otherwise the defaulted payload is appended to the
checkin collection and the new identifier is returned. -/
theorem checkin_conflict (st : Store) (input : CheckinInput) (now : ℚ)
    (newId : Nat) :
    ((∃ c ∈ st.checkins, c.room = input.room ∧ c.status = "Occupied") →
      create_checkin st input now newId = .error 400)
    ∧ ((∀ c ∈ st.checkins, ¬(c.room = input.room ∧ c.status = "Occupied")) →
      create_checkin st input now newId =
          .ok ({ st with
                 checkins := st.checkins ++ [checkinDocOf input now newId] },
               newId)
        ∧ (checkinDocOf input now newId).room = input.room
        ∧ (checkinDocOf input now newId).cid = newId) := by
  constructor
  · rintro ⟨c, hmem, hroom, hstat⟩
    have hp : occupiedInRoom input.room c = true := by
      simp [occupiedInRoom, hroom, hstat]
    have hsome : (st.checkins.find? (occupiedInRoom input.room)).isSome := by
      rw [List.find?_isSome]
      exact ⟨c, hmem, hp⟩
    obtain ⟨d, hd⟩ := Option.isSome_iff_exists.mp hsome
    simp [create_checkin, hd]
  · intro hnone
    have hfind : st.checkins.find? (occupiedInRoom input.room) = none := by
      rw [List.find?_eq_none]
      intro c hmem
      simp only [occupiedInRoom, Bool.and_eq_true, beq_iff_eq, not_and]
      intro h1 h2
      exact hnone c hmem ⟨h1, h2⟩
    exact ⟨by simp [create_checkin, hfind], rfl, rfl⟩

/-- C6 witness: creating a checkin for room 101 against the scenario store
(room 101 Occupied) is rejected with 400; creating one for room 202 against
the same store is persisted with its identifier returned. -/
theorem checkin_conflict_witness :
    create_checkin scenarioStore
        { name := "N", phone := "777", room := "101" } 0 5 = .error 400
    ∧ (create_checkin scenarioStore
          { name := "M", phone := "888", room := "202" } 0 6 =
        .ok ({ scenarioStore with
               checkins := scenarioStore.checkins ++
                 [checkinDocOf { name := "M", phone := "888", room := "202" } 0 6] },
             6)
      ∧ (checkinDocOf { name := "M", phone := "888", room := "202" } 0 6).room =
          "202"
      ∧ (checkinDocOf { name := "M", phone := "888", room := "202" } 0 6).cid =
          6) :=
  ⟨(checkin_conflict scenarioStore
      { name := "N", phone := "777", room := "101" } 0 5).1
        ⟨scenarioCheckin, List.mem_singleton.mpr rfl, rfl, rfl⟩,
    (checkin_conflict scenarioStore
      { name := "M", phone := "888", room := "202" } 0 6).2 (by decide)⟩

/-- C7: a checkout whose (room, phone) pair matches no Occupied checkin fails
with 404 and returns no store — no bill is created, no order marked synced,
no checkin changed. -/
theorem checkout_notfound (st : Store) (room phone : String) (now : ℚ)
    (billId : String)
    (hno : ∀ c ∈ st.checkins,
      ¬(c.room = room ∧ c.phone = phone ∧ c.status = "Occupied")) :
    create_final_bill st room phone now billId = .error 404
    ∧ ∀ st' bid, create_final_bill st room phone now billId ≠ .ok (st', bid) := by
  have hfind : st.checkins.find? (checkinMatches room phone) = none := by
    rw [List.find?_eq_none]
    intro c hmem
    simp only [checkinMatches, Bool.and_eq_true, beq_iff_eq, not_and]
    intro h12 h3
    exact hno c hmem ⟨h12.1, h12.2, h3⟩
  refine ⟨by simp [create_final_bill, hfind], ?_⟩
  intro st' bid hcontra
  rw [create_final_bill, hfind] at hcontra
  exact Except.noConfusion hcontra

/-- C7 witness: checking out room 101 with the wrong phone against the
scenario store fails with 404. -/
theorem checkout_notfound_witness :
    create_final_bill scenarioStore "101" "000" 90000 "BILL-0A1B2C3D" =
      .error 404
    ∧ ∀ st' bid, create_final_bill scenarioStore "101" "000" 90000
        "BILL-0A1B2C3D" ≠ .ok (st', bid) :=
  checkout_notfound scenarioStore "101" "000" 90000 "BILL-0A1B2C3D" (by decide)

/-- update_one on a decomposed collection: when nothing before `b` matches
and `b` does, exactly `b` is rewritten. -/
lemma updateFirst_append (p : α → Bool) (f : α → α) (pre : List α) (b : α)
    (post : List α) (hpre : ∀ x ∈ pre, p x = false) (hb : p b = true) :
    updateFirst p f (pre ++ b :: post) = pre ++ f b :: post := by
  induction pre with
  | nil => simp [updateFirst, hb]
  | cons x xs ih =>
    have hx := hpre x (List.mem_cons_self x xs)
    simp only [List.cons_append, updateFirst, hx, Bool.false_eq_true,
      if_false, List.cons.injEq, true_and]
    exact ih fun y hy => hpre y (List.mem_cons_of_mem x hy)

/-- C8: paying a bill fails with 404 exactly when no bill whose business id
field equals the given billId exists; otherwise the first such bill gets
status "Paid", the supplied mode and an updated_at stamp, all other bills
untouched — with no hypothesis on the previous status, so re-paying a Paid
bill succeeds and overwrites mode and timestamp. -/
theorem pay_bill (st : Store) (billId mode : String) (now : ℚ) :
    (mark_bill_paid st billId mode now = .error 404 ↔
      ∀ b ∈ st.bills, b.id ≠ billId)
    ∧ ∀ pre b post, st.bills = pre ++ b :: post →
        (∀ x ∈ pre, x.id ≠ billId) → b.id = billId →
        mark_bill_paid st billId mode now =
          .ok { st with bills := pre ++
            { b with status := "Paid", mode := mode,
                     updatedAt := some now } :: post } := by
  constructor
  · unfold mark_bill_paid
    split_ifs with hany
    · obtain ⟨b, hbmem, hbid⟩ : ∃ b ∈ st.bills, b.id = billId := by
        simpa using hany
      refine iff_of_false (by simp) ?_
      intro hall
      exact absurd hbid (hall b hbmem)
    · have hall : ∀ b ∈ st.bills, b.id ≠ billId := by
        simpa using hany
      exact iff_of_true rfl hall
  · rintro pre b post hsplit hpre hb
    have hany : st.bills.any (fun x => x.id == billId) = true := by
      rw [hsplit]
      simp only [List.any_eq_true]
      exact ⟨b, by simp, by simp [hb]⟩
    unfold mark_bill_paid
    rw [if_pos hany, hsplit,
      updateFirst_append _ _ pre b post
        (fun x hx => by simp [hpre x hx]) (by simp [hb])]

/-- The bill collection used to instantiate pay_bill: one unrelated bill
followed by an already-Paid one. -/
def billStore : Store :=
  { checkins := [], orders := [],
    bills :=
      [{ id := "BILL-00000000", guest := "G0", phone := "1", room := "100",
         nights := 1, roomCharges := 500, foodTotal := 0, advance := 0,
         tax := 60, total := 560, status := "Unpaid", mode := "Cash",
         createdAt := some 5 },
       { id := "BILL-1111AAAA", guest := "G1", phone := "2", room := "101",
         nights := 1, roomCharges := 100, foodTotal := 0, advance := 0,
         tax := 12, total := 112, status := "Paid", mode := "Card",
         createdAt := some 6 }] }

/-- C8 witness: paying an unknown id against billStore is 404 (via the iff);
re-paying the already-Paid second bill succeeds and overwrites its mode and
timestamp while the first bill is untouched. -/
theorem pay_bill_witness :
    (mark_bill_paid billStore "BILL-9999ZZZZ" "UPI" 99 = .error 404 ↔
      ∀ b ∈ billStore.bills, b.id ≠ "BILL-9999ZZZZ")
    ∧ mark_bill_paid billStore "BILL-1111AAAA" "UPI" 99 =
        .ok { billStore with bills :=
          [{ id := "BILL-00000000", guest := "G0", phone := "1", room := "100",
             nights := 1, roomCharges := 500, foodTotal := 0, advance := 0,
             tax := 60, total := 560, status := "Unpaid", mode := "Cash",
             createdAt := some 5 }] ++
          { id := "BILL-1111AAAA", guest := "G1", phone := "2", room := "101",
            nights := 1, roomCharges := 100, foodTotal := 0, advance := 0,
            tax := 12, total := 112, status := "Paid", mode := "UPI",
            createdAt := some 6, updatedAt := some 99 } :: [] } :=
  ⟨(pay_bill billStore "BILL-9999ZZZZ" "UPI" 99).1,
    (pay_bill billStore "BILL-1111AAAA" "UPI" 99).2
      [{ id := "BILL-00000000", guest := "G0", phone := "1", room := "100",
         nights := 1, roomCharges := 500, foodTotal := 0, advance := 0,
         tax := 60, total := 560, status := "Unpaid", mode := "Cash",
         createdAt := some 5 }]
      { id := "BILL-1111AAAA", guest := "G1", phone := "2", room := "101",
        nights := 1, roomCharges := 100, foodTotal := 0, advance := 0,
        tax := 12, total := 112, status := "Paid", mode := "Card",
        createdAt := some 6 }
      [] rfl (by decide) rfl⟩

/-- C10: a successful checkout rewrites the order collection pointwise; every
order keeps its oid, type, room, name, phone, items, total, status, mode and
createdAt, and each order selected by the inhouse/room/Unpaid filter gets
synced = true and an updated_at stamp while still satisfying that same
filter afterwards — so a later checkout of the same room would fold it
again. -/
theorem checkout_order_frame (st : Store) (room phone : String) (now : ℚ)
    (billId : String) (st' : Store) (bid : String)
    (h : create_final_bill st room phone now billId = .ok (st', bid)) :
    List.Forall₂ (fun o o' : OrderDoc =>
      o'.oid = o.oid ∧ o'.type = o.type ∧ o'.room = o.room ∧
      o'.name = o.name ∧ o'.phone = o.phone ∧ o'.items = o.items ∧
      o'.total = o.total ∧ o'.status = o.status ∧ o'.mode = o.mode ∧
      o'.createdAt = o.createdAt ∧
      (inhouseUnpaidFor room o = true →
        o'.synced = true ∧ o'.updatedAt = some now ∧
        inhouseUnpaidFor room o' = true))
      st.orders st'.orders := by
  obtain ⟨c, hc, rfl, -⟩ := (create_final_bill_ok_iff st room phone now
    billId st' bid).mp h
  have horders : (checkoutResult st c room now billId).orders =
      st.orders.map (fun o =>
        if ((st.orders.filter (inhouseUnpaidFor room)).map
            OrderDoc.oid).contains o.oid then
          { o with synced := true, updatedAt := some now }
        else o) := rfl
  rw [horders, List.forall₂_map_right_iff, List.forall₂_same]
  intro o ho
  by_cases hin : ((st.orders.filter (inhouseUnpaidFor room)).map
      OrderDoc.oid).contains o.oid = true
  · rw [if_pos hin]
    exact ⟨rfl, rfl, rfl, rfl, rfl, rfl, rfl, rfl, rfl, rfl,
      fun hm => ⟨rfl, rfl, hm⟩⟩
  · rw [if_neg hin]
    refine ⟨rfl, rfl, rfl, rfl, rfl, rfl, rfl, rfl, rfl, rfl,
      fun hm => absurd ?_ hin⟩
    have h1 : o ∈ st.orders.filter (inhouseUnpaidFor room) :=
      List.mem_filter.mpr ⟨ho, hm⟩
    have h2 : o.oid ∈ (st.orders.filter (inhouseUnpaidFor room)).map
        OrderDoc.oid :=
      List.mem_map_of_mem OrderDoc.oid h1
    simpa using h2

/-- C10 witness: the scenario instantiation of checkout_order_frame. -/
theorem checkout_order_frame_witness :
    List.Forall₂ (fun o o' : OrderDoc =>
      o'.oid = o.oid ∧ o'.type = o.type ∧ o'.room = o.room ∧
      o'.name = o.name ∧ o'.phone = o.phone ∧ o'.items = o.items ∧
      o'.total = o.total ∧ o'.status = o.status ∧ o'.mode = o.mode ∧
      o'.createdAt = o.createdAt ∧
      (inhouseUnpaidFor "101" o = true →
        o'.synced = true ∧ o'.updatedAt = some 90000 ∧
        inhouseUnpaidFor "101" o' = true))
      scenarioStore.orders scenarioResult.orders :=
  checkout_order_frame scenarioStore "101" "555" 90000 "BILL-0A1B2C3D"
    scenarioResult "BILL-0A1B2C3D" scenario_ok

/-- A store with all three collections empty. -/
def emptyStore : Store := { checkins := [], orders := [], bills := [] }

/-- An order request whose single item has qty 0, so Σ qty × price is 0,
with a client-supplied total of 300. -/
def zeroSumInput : OrderInput :=
  { phone := "555", room := some "101",
    items := [{ name := "water", qty := 0, price := 5 }], total := 300 }

/-- C4 counterexample: for a non-empty items list whose Σ qty × price is
zero, the stored total is the client-supplied 300, not the computed sum —
`sum(...) or data.get("total", 0)` treats a zero sum as falsy and falls back
to the client value, so the claim's "including when that sum is zero" fails
on the code. -/
theorem order_total_zero_sum_counterexample :
    zeroSumInput.items ≠ [] ∧ sumItems zeroSumInput.items = 0 ∧
    ∃ o, ((create_order emptyStore zeroSumInput 0 0).1).orders = [o] ∧
      o.total = 300 ∧ ¬o.total = sumItems zeroSumInput.items := by
  have hs : sumItems zeroSumInput.items = 0 := by
    simp [sumItems, zeroSumInput]
  have ht : storedTotal zeroSumInput = 300 := by
    unfold storedTotal
    rw [if_neg (by simp [zeroSumInput]), if_pos hs]
    rfl
  refine ⟨by simp [zeroSumInput], hs, _, rfl, ht, ?_⟩
  show ¬storedTotal zeroSumInput = sumItems zeroSumInput.items
  rw [ht, hs]
  norm_num

/-- C4 amended: for every order creation whose items list is non-empty, the
stored total is Σ qty × price — overriding any client total — whenever that
sum is nonzero; when the sum is zero the client-supplied total is kept. -/
theorem order_total_override (st : Store) (input : OrderInput) (now : ℚ)
    (newId : Nat) (hne : input.items ≠ []) :
    ∃ o, ((create_order st input now newId).1).orders = st.orders ++ [o] ∧
      (sumItems input.items ≠ 0 → o.total = sumItems input.items) ∧
      (sumItems input.items = 0 → o.total = input.total) := by
  have hie : input.items.isEmpty = false := by
    cases hi : input.items with
    | nil => exact absurd hi hne
    | cons a l => rfl
  refine ⟨_, rfl, ?_, ?_⟩
  · intro hs
    show storedTotal input = sumItems input.items
    unfold storedTotal
    simp [hie, hs]
  · intro hs
    show storedTotal input = input.total
    unfold storedTotal
    simp [hie, hs]

/-- An order request with two priced items summing to 250 and a client total
of 999. -/
def itemsInput : OrderInput :=
  { phone := "555", room := some "101",
    items := [{ name := "tea", qty := 2, price := 100 },
              { name := "snack", qty := 1, price := 50 }],
    total := 999 }

/-- C4 witness: the instantiation of order_total_override on itemsInput. -/
theorem order_total_override_witness :
    ∃ o, ((create_order emptyStore itemsInput 0 3).1).orders =
        emptyStore.orders ++ [o] ∧
      (sumItems itemsInput.items ≠ 0 → o.total = sumItems itemsInput.items) ∧
      (sumItems itemsInput.items = 0 → o.total = itemsInput.total) :=
  order_total_override emptyStore itemsInput 0 3 (by simp [itemsInput])

/-- An order request containing an item with negative quantity; the schema
validates only the types (int, float), so it passes validation. -/
def negItemInput : OrderInput :=
  { phone := "555", room := some "101",
    items := [{ name := "refund", qty := -1, price := 10 }], total := 0 }

/-- C9 counterexample: an order whose item has qty = −1 is not rejected —
create_order persists it unchanged and computes total = −10, so an accepted
OrderItem need not have quantity ≥ 0 and no validation error occurs before
persistence. -/
theorem order_negative_item_accepted :
    ∃ o, ((create_order emptyStore negItemInput 0 0).1).orders = [o] ∧
      o.items = negItemInput.items ∧
      (∃ it ∈ o.items, it.qty < 0) ∧
      o.total = -10 := by
  refine ⟨_, rfl, rfl,
    ⟨{ name := "refund", qty := -1, price := 10 }, ?_, by norm_num⟩, ?_⟩
  · show _ ∈ ([{ name := "refund", qty := -1, price := 10 }] : List OrderItem)
    exact List.mem_singleton.mpr rfl
  · show storedTotal negItemInput = -10
    unfold storedTotal
    simp [negItemInput, sumItems]

/-- C9 amended: pydantic validation of OrderItem enforces only the declared
types (integer quantity, numeric price) with no sign constraint; order
creation never fails after validation and persists the items verbatim,
negative quantities and prices included. -/
theorem order_items_not_validated (st : Store) (input : OrderInput) (now : ℚ)
    (newId : Nat) :
    ∃ o, ((create_order st input now newId).1).orders = st.orders ++ [o] ∧
      o.items = input.items ∧ o.phone = input.phone ∧
      (create_order st input now newId).2 = newId :=
  ⟨_, rfl, rfl, rfl, rfl⟩

end Hotel
